import Mathlib

/-
Verification of the data-mapping models in
src/mcp_atlassian/models/confluence/common.py (ConfluenceUser and
ConfluenceAttachment).

The raw API payload handed to the factory methods is a Python dict whose
values can be strings, numbers, booleans, None, or nested dicts.  We embed
such values as the inductive type RawValue and a dict as an association
list.  Python operations used by the source (dict.get, truthiness, the
or operator, the in operator, == against a string literal) are embedded as
total or fallible Lean functions; operations that can raise in Python
(attribute access on a non-dict, membership on a non-container) return an
error through Except.
-/

set_option autoImplicit false

/-- Embedded Python value universe for raw API payloads: None, bool, int,
str and nested dicts. -/
inductive RawValue where
  | null
  | bool (b : Bool)
  | int (n : Int)
  | str (s : String)
  | dict (entries : List (String × RawValue))
deriving Repr

/-- A Python dict with string keys, embedded as an association list
(first binding wins, matching a dict whose keys are unique). -/
abbrev PyDict := List (String × RawValue)

/-- Embedded Python errors that the source code can raise. -/
inductive PyError where
  | attributeError
  | typeError
  | validationError
deriving DecidableEq, Repr

deriving instance DecidableEq for Except

/-- First binding for a key in an embedded dict. -/
def dictGet (d : PyDict) (k : String) : Option RawValue :=
  match d with
  | [] => none
  | (k1, v) :: rest => if k1 = k then some v else dictGet rest k

/-- Python dict.get(k): the value bound to k, or None when k is absent. -/
def pyGet (d : PyDict) (k : String) : RawValue :=
  (dictGet d k).getD .null

/-- Python dict.get(k, default): the value bound to k (even when that value
is None), or the default when k is absent. -/
def pyGetD (d : PyDict) (k : String) (default : RawValue) : RawValue :=
  (dictGet d k).getD default

/-- Python truthiness of an embedded value. -/
def RawValue.truthy : RawValue → Bool
  | .null => false
  | .bool b => b
  | .int n => n != 0
  | .str s => s != ""
  | .dict entries => !entries.isEmpty

/-- Python a or b: a when a is truthy, else b (b returned even when falsy). -/
def pyOr (a b : RawValue) : RawValue :=
  if a.truthy then a else b

/-- Python v == "lit" for a string literal: true only for the equal string;
any non-string value (including None) compares unequal. -/
def pyEqStr (v : RawValue) (t : String) : Bool :=
  match v with
  | .str s => s == t
  | _ => false

/-- Python v.get(k): defined on dicts; any other receiver raises
AttributeError (e.g. None.get or "x".get). -/
def pyMethodGet (v : RawValue) (k : String) : Except PyError RawValue :=
  match v with
  | .dict entries => .ok (pyGet entries k)
  | _ => .error .attributeError

/-- Whether the second character list is an initial segment of the
first. -/
def charsStartWith : List Char → List Char → Bool
  | _, [] => true
  | [], _ :: _ => false
  | a :: as, b :: bs => a == b && charsStartWith as bs

/-- Whether the second character list occurs contiguously inside the
first (the Python substring test, written structurally). -/
def charsContain : List Char → List Char → Bool
  | [], s => charsStartWith [] s
  | a :: rest, s => charsStartWith (a :: rest) s || charsContain rest s

/-- Python needle in v: substring test on a string, key membership on a
dict, TypeError on non-container values (None, bool, int). -/
def pyContains (needle : String) (v : RawValue) : Except PyError Bool
  := match v with
  | .str s => .ok (charsContain s.data needle.data)
  | .dict entries => .ok (entries.any fun p => p.1 == needle)
  | _ => .error .typeError

/-- Modelled from the spec: the sentinel display-name constant UNASSIGNED
imported from models/constants.py, which is not among the provided sources.
The spec fixes it as the string "Unassigned" (section 8 example: raw
accountId/accountStatus payload yields display_name="Unassigned" sentinel). -/
def UNASSIGNED : String := "Unassigned"

/-- Typed record for ConfluenceUser, with the field types and defaults
declared in the source (str or None fields become Option String). -/
structure ConfluenceUser where
  account_id : Option String := none
  username : Option String := none
  display_name : String := UNASSIGNED
  email : Option String := none
  profile_picture : Option String := none
  is_active : Bool := true
  locale : Option String := none
deriving DecidableEq, Repr

/-- Typed record for ConfluenceAttachment, with the field types and
defaults declared in the source. -/
structure ConfluenceAttachment where
  id : Option String := none
  type : Option String := none
  status : Option String := none
  title : Option String := none
  media_type : Option String := none
  file_size : Option Int := none
deriving DecidableEq, Repr

/-- The string carried by a raw value when it is a string. -/
def rvStr? : RawValue → Option String
  | .str s => some s
  | _ => none

/-- Modelled from the spec: validation of a value passed for a field typed
str or None by the pydantic base class ApiModel (models/base.py, not among
the provided sources).  The spec types the optional fields as optional
strings; None maps to an absent field, a string is kept, and any other
value fails validation. -/
def validOptStr : RawValue → Except PyError (Option String)
  | .null => .ok none
  | .str s => .ok (some s)
  | _ => .error .validationError

/-- Modelled from the spec: validation of a value passed for a field typed
str (display_name); only a string is accepted. -/
def validStr : RawValue → Except PyError String
  | .str s => .ok s
  | _ => .error .validationError

/-- Modelled from the spec: validation of a value passed for a field typed
int or None (file_size); None maps to absent, an integer is kept, any other
value fails validation. -/
def validOptInt : RawValue → Except PyError (Option Int)
  | .null => .ok none
  | .int n => .ok (some n)
  | _ => .error .validationError

/-- Modelled from the spec: the keyword-argument constructor call
cls(account_id=..., ...) of the pydantic model, validating every passed
value against the declared field type. -/
def mkConfluenceUser (aid un dn em pp : RawValue) (ia : Bool) (lo : RawValue) :
    Except PyError ConfluenceUser :=
  match validOptStr aid, validOptStr un, validStr dn, validOptStr em,
      validOptStr pp, validOptStr lo with
  | .ok a, .ok u, .ok d, .ok e, .ok p, .ok l =>
      .ok { account_id := a, username := u, display_name := d, email := e,
            profile_picture := p, is_active := ia, locale := l }
  | _, _, _, _, _, _ => .error .validationError

/-- Modelled from the spec: the keyword-argument constructor call
cls(id=..., ...) of the pydantic attachment model. -/
def mkConfluenceAttachment (i ty st ti mt fs : RawValue) :
    Except PyError ConfluenceAttachment :=
  match validOptStr i, validOptStr ty, validOptStr st, validOptStr ti,
      validOptStr mt, validOptInt fs with
  | .ok a, .ok b, .ok c, .ok d, .ok e, .ok f =>
      .ok { id := a, type := b, status := c, title := d, media_type := e,
            file_size := f }
  | _, _, _, _, _, _ => .error .validationError

/-- Lines 63-66 of the source: profile_pic is None unless the raw
profilePicture value is truthy, in which case its path sub-field is read
(raising AttributeError when the truthy value is not a dict). -/
def userProfilePic (data : PyDict) : Except PyError RawValue :=
  let pic_data := pyGet data "profilePicture"
  if pic_data.truthy then pyMethodGet pic_data "path"
  else .ok .null

/-- Lines 68-75 of the source: email is raw email or raw emailAddress
(Python or); when that is falsy, the raw username (defaulted to the empty
string) is used instead whenever it contains the character @. -/
def userEmail (data : PyDict) : Except PyError RawValue :=
  let email := pyOr (pyGet data "email") (pyGet data "emailAddress")
  if email.truthy then .ok email
  else
    match pyContains "@" (pyGetD data "username" (.str "")) with
    | .error e => .error e
    | .ok true => .ok (pyGetD data "username" (.str ""))
    | .ok false => .ok email

/-- Lines 46-88 of the source: ConfluenceUser.from_api_response.  The data
argument is None or a dict (the falsy check `if not data` covers both); the
extra keyword arguments are captured and never used. -/
def ConfluenceUser.from_api_response (data : Option PyDict) (_kwargs : PyDict) :
    Except PyError ConfluenceUser :=
  match data with
  | none => .ok {}
  | some d =>
    if d.isEmpty then .ok {}
    else
      match userProfilePic d with
      | .error e => .error e
      | .ok profile_pic =>
        match userEmail d with
        | .error e => .error e
        | .ok email =>
          mkConfluenceUser (pyGet d "accountId")
            (pyOr (pyGet d "username") (pyGet d "name"))
            (pyGetD d "displayName" (.str UNASSIGNED))
            email profile_pic
            (pyEqStr (pyGet d "accountStatus") "active")
            (pyGet d "locale")

/-- Lines 32-44 of the source: the deprecated name property, an alias for
display_name.  The DeprecationWarning it emits is an advisory side channel
with no effect on the returned value and is not modelled. -/
def ConfluenceUser.name (u : ConfluenceUser) : String :=
  u.display_name

/-- Embedded Python value of a str-or-None field. -/
def optStrRV : Option String → RawValue
  | none => .null
  | some s => .str s

/-- Embedded Python value of an int-or-None field. -/
def optIntRV : Option Int → RawValue
  | none => .null
  | some n => .int n

/-- Lines 90-97 of the source: ConfluenceUser.to_simplified_dict, a
four-key dict in source order. -/
def ConfluenceUser.to_simplified_dict (u : ConfluenceUser) : PyDict :=
  [("display_name", .str u.display_name),
   ("username", optStrRV u.username),
   ("email", optStrRV u.email),
   ("profile_picture", optStrRV u.profile_picture)]

/-- Lines 112-135 of the source: ConfluenceAttachment.from_api_response. -/
def ConfluenceAttachment.from_api_response (data : Option PyDict)
    (_kwargs : PyDict) : Except PyError ConfluenceAttachment :=
  match data with
  | none => .ok {}
  | some d =>
    if d.isEmpty then .ok {}
    else
      match pyMethodGet (pyGetD d "extensions" (.dict [])) "mediaType" with
      | .error e => .error e
      | .ok mt =>
        match pyMethodGet (pyGetD d "extensions" (.dict [])) "fileSize" with
        | .error e => .error e
        | .ok fs =>
          mkConfluenceAttachment (pyGet d "id") (pyGet d "type")
            (pyGet d "status") (pyGet d "title") mt fs

/-- Lines 137-146 of the source: ConfluenceAttachment.to_simplified_dict,
a six-key dict in source order. -/
def ConfluenceAttachment.to_simplified_dict (a : ConfluenceAttachment) :
    PyDict :=
  [("id", optStrRV a.id),
   ("type", optStrRV a.type),
   ("status", optStrRV a.status),
   ("title", optStrRV a.title),
   ("media_type", optStrRV a.media_type),
   ("file_size", optIntRV a.file_size)]

/-- Whether a fallible computation raised an embedded Python error. -/
def raisesError {α : Type} : Except PyError α → Bool
  | .error _ => true
  | .ok _ => false

/-- The integer carried by a raw value when it is an integer. -/
def rvInt? : RawValue → Option Int
  | .int n => some n
  | _ => none

/-- Raw values accepted by validation for a str-or-None field. -/
def okV : RawValue → Bool
  | .null => true
  | .str _ => true
  | _ => false

/-- Raw values accepted by validation for an int-or-None field. -/
def okIntV : RawValue → Bool
  | .null => true
  | .int _ => true
  | _ => false

/-- The key is absent from the dict or bound to a string. -/
def strOrAbsent (d : PyDict) (k : String) : Bool :=
  match dictGet d k with
  | none => true
  | some (.str _) => true
  | some _ => false

/-- Well-shaped profilePicture value: a dict whose path entry fits a
string field, or any falsy value (which the source skips). -/
def okPic (d : PyDict) : Bool :=
  match pyGet d "profilePicture" with
  | .dict entries => okV (pyGet entries "path")
  | v => !v.truthy

/-- Well-shaped raw user payload: profilePicture is well shaped, username
and displayName are absent or strings, and every other raw field feeding a
string-typed record field is absent, None or a string. -/
def userDataOk (d : PyDict) : Bool :=
  okPic d && okV (pyGet d "accountId") && okV (pyGet d "email") &&
    okV (pyGet d "emailAddress") && strOrAbsent d "username" &&
    okV (pyGet d "name") && strOrAbsent d "displayName" &&
    okV (pyGet d "locale")

/-- Well-shaped extensions value: absent (the default empty dict applies)
or a dict with string-or-absent mediaType and integer-or-absent
fileSize. -/
def okExt (d : PyDict) : Bool :=
  match pyGetD d "extensions" (.dict []) with
  | .dict entries =>
      okV (pyGet entries "mediaType") && okIntV (pyGet entries "fileSize")
  | _ => false

/-- Well-shaped raw attachment payload. -/
def attachmentDataOk (d : PyDict) : Bool :=
  okExt d && okV (pyGet d "id") && okV (pyGet d "type") &&
    okV (pyGet d "status") && okV (pyGet d "title")

/-- Concrete input used to instantiate the is_active theorem. -/
def c1data : PyDict := [("accountStatus", RawValue.str "active")]

/-- The record produced for c1data. -/
def c1rec : ConfluenceUser :=
  { account_id := none, username := none, display_name := UNASSIGNED,
    email := none, profile_picture := none, is_active := true,
    locale := none }

/-- Concrete well-shaped user input. -/
def c2userData : PyDict := [("email", RawValue.str "a@b")]

/-- Concrete well-shaped attachment input. -/
def c2attData : PyDict := [("id", RawValue.str "1")]

/-- Concrete input with both email fields present and non-empty. -/
def c3data : PyDict :=
  [("email", RawValue.str "a@b.c"), ("emailAddress", RawValue.str "x@y.z")]

/-- The record produced for c3data. -/
def c3rec : ConfluenceUser :=
  { account_id := none, username := none, display_name := UNASSIGNED,
    email := some "a@b.c", profile_picture := none, is_active := false,
    locale := none }

/-- Concrete input with only the legacy name field. -/
def c4data : PyDict := [("name", RawValue.str "bob")]

/-- The record produced for c4data. -/
def c4rec : ConfluenceUser :=
  { account_id := none, username := some "bob", display_name := UNASSIGNED,
    email := none, profile_picture := none, is_active := false,
    locale := none }

/-- Concrete attachment input from the spec examples. -/
def c7data : PyDict :=
  [("extensions", RawValue.dict
      [("mediaType", RawValue.str "image/png"),
       ("fileSize", RawValue.int 2048)]),
   ("id", RawValue.str "att1")]

/-- The record produced for c7data. -/
def c7rec : ConfluenceAttachment :=
  { id := some "att1", type := none, status := none, title := none,
    media_type := some "image/png", file_size := some 2048 }

/-- Concrete input with a displayName. -/
def c8data : PyDict := [("displayName", RawValue.str "Jane")]

/-- The record produced for c8data. -/
def c8rec : ConfluenceUser :=
  { account_id := none, username := none, display_name := "Jane",
    email := none, profile_picture := none, is_active := false,
    locale := none }

/-- Concrete input whose displayName is present but empty. -/
def c10data : PyDict := [("displayName", RawValue.str "")]

/-- The record produced for c10data. -/
def c10rec : ConfluenceUser :=
  { account_id := none, username := none, display_name := "",
    email := none, profile_picture := none, is_active := false,
    locale := none }

theorem validOptStr_ok {v : RawValue} {o : Option String}
    (h : validOptStr v = .ok o) : o = rvStr? v := by
  cases v <;> simp_all [validOptStr, rvStr?]

theorem validStr_ok {v : RawValue} {s : String} (h : validStr v = .ok s) :
    v = .str s := by
  cases v <;> simp_all [validStr]

theorem validOptInt_ok {v : RawValue} {o : Option Int}
    (h : validOptInt v = .ok o) : o = rvInt? v := by
  cases v <;> simp_all [validOptInt, rvInt?]

theorem mkUser_ok {aid un dn em pp : RawValue} {ia : Bool} {lo : RawValue}
    {r : ConfluenceUser} (h : mkConfluenceUser aid un dn em pp ia lo = .ok r) :
    r.account_id = rvStr? aid ∧ r.username = rvStr? un ∧
    RawValue.str r.display_name = dn ∧ r.email = rvStr? em ∧
    r.profile_picture = rvStr? pp ∧ r.is_active = ia ∧
    r.locale = rvStr? lo := by
  unfold mkConfluenceUser at h
  split at h
  next a u dd e p l ha hu hd he hp hl =>
    cases h
    exact ⟨validOptStr_ok ha, validOptStr_ok hu, (validStr_ok hd).symm,
      validOptStr_ok he, validOptStr_ok hp, rfl, validOptStr_ok hl⟩
  next => exact absurd h (by simp)

/-- Inversion principle for ConfluenceUser.from_api_response: a returned
record either comes from the falsy-data shortcut (all defaults) or has
every field determined by the raw mapping. -/
theorem user_ok_fields {d kw : PyDict} {r : ConfluenceUser}
    (h : ConfluenceUser.from_api_response (some d) kw = .ok r) :
    (d = [] ∧ r = {}) ∨
    (d ≠ [] ∧ ∃ pp em, userProfilePic d = .ok pp ∧ userEmail d = .ok em ∧
      r.account_id = rvStr? (pyGet d "accountId") ∧
      r.username = rvStr? (pyOr (pyGet d "username") (pyGet d "name")) ∧
      RawValue.str r.display_name = pyGetD d "displayName" (.str UNASSIGNED) ∧
      r.email = rvStr? em ∧
      r.profile_picture = rvStr? pp ∧
      r.is_active = pyEqStr (pyGet d "accountStatus") "active" ∧
      r.locale = rvStr? (pyGet d "locale")) := by
  simp only [ConfluenceUser.from_api_response] at h
  split at h
  next hemp =>
    left
    refine ⟨List.isEmpty_iff.mp hemp, ?_⟩
    injection h with h
    exact h.symm
  next hemp =>
    right
    refine ⟨fun hnil => hemp (by simp [hnil]), ?_⟩
    split at h
    next => exact absurd h (by simp)
    next pp hpp =>
      split at h
      next => exact absurd h (by simp)
      next em hem =>
        obtain ⟨h1, h2, h3, h4, h5, h6, h7⟩ := mkUser_ok h
        exact ⟨pp, em, hpp, hem, h1, h2, h3, h4, h5, h6, h7⟩

/-- Characterization of a successfully resolved email value. -/
theorem userEmail_ok_char {d : PyDict} {em : RawValue}
    (h : userEmail d = .ok em) :
    em = (if (pyGet d "email").truthy then pyGet d "email"
      else if (pyGet d "emailAddress").truthy then pyGet d "emailAddress"
      else if pyContains "@" (pyGetD d "username" (.str "")) = .ok true then
        pyGetD d "username" (.str "")
      else pyGet d "emailAddress") := by
  simp only [userEmail] at h
  by_cases h1 : (pyGet d "email").truthy
  · rw [if_pos h1]
    have hp : pyOr (pyGet d "email") (pyGet d "emailAddress") =
        pyGet d "email" := if_pos h1
    rw [hp] at h
    rw [if_pos h1] at h
    injection h with h
    exact h.symm
  · rw [if_neg h1]
    have hp : pyOr (pyGet d "email") (pyGet d "emailAddress") =
        pyGet d "emailAddress" := if_neg h1
    rw [hp] at h
    by_cases h2 : (pyGet d "emailAddress").truthy
    · rw [if_pos h2]
      rw [if_pos h2] at h
      injection h with h
      exact h.symm
    · rw [if_neg h2]
      rw [if_neg h2] at h
      cases hc : pyContains "@" (pyGetD d "username" (.str "")) with
      | error e => rw [hc] at h; simp at h
      | ok hasAt =>
        rw [hc] at h
        cases hasAt with
        | true =>
          rw [if_pos rfl]
          injection h with h
          exact h.symm
        | false =>
          rw [if_neg (by simp)]
          injection h with h
          exact h.symm

/-- The embedded accountStatus comparison is true exactly on the literal
string binding. -/
theorem pyEqStr_get_iff (d : PyDict) (k t : String) :
    pyEqStr (pyGet d k) t = true ↔ dictGet d k = some (.str t) := by
  unfold pyGet
  cases hv : dictGet d k with
  | none => simp [pyEqStr]
  | some v => cases v <;> simp [pyEqStr]

theorem okV_valid {v : RawValue} (h : okV v = true) :
    validOptStr v = .ok (rvStr? v) := by
  cases v <;> simp_all [okV, validOptStr, rvStr?]

theorem okIntV_valid {v : RawValue} (h : okIntV v = true) :
    validOptInt v = .ok (rvInt? v) := by
  cases v <;> simp_all [okIntV, validOptInt, rvInt?]

theorem strOrAbsent_getD {d : PyDict} {k : String} (q : String)
    (h : strOrAbsent d k = true) : ∃ s, pyGetD d k (.str q) = .str s := by
  unfold strOrAbsent at h
  unfold pyGetD
  cases hg : dictGet d k with
  | none => exact ⟨q, rfl⟩
  | some v =>
    rw [hg] at h
    cases v <;> simp at h
    exact ⟨_, rfl⟩

theorem userProfilePic_okV {d : PyDict} (h : okPic d = true) :
    ∃ v, userProfilePic d = .ok v ∧ okV v = true := by
  unfold okPic at h
  simp only [userProfilePic]
  by_cases ht : (pyGet d "profilePicture").truthy
  · rw [if_pos ht]
    cases hp : pyGet d "profilePicture" with
    | dict entries =>
      rw [hp] at h
      exact ⟨pyGet entries "path", rfl, h⟩
    | null => rw [hp] at ht; simp [RawValue.truthy] at ht
    | bool b => rw [hp] at h ht; simp [RawValue.truthy] at h ht; simp_all
    | int n => rw [hp] at h ht; simp [RawValue.truthy] at h ht; simp_all
    | str s => rw [hp] at h ht; simp [RawValue.truthy] at h ht; simp_all
  · rw [if_neg ht]
    exact ⟨.null, rfl, rfl⟩

theorem userEmail_okV {d : PyDict} (he : okV (pyGet d "email") = true)
    (hea : okV (pyGet d "emailAddress") = true)
    (hu : strOrAbsent d "username" = true) :
    ∃ v, userEmail d = .ok v ∧ okV v = true := by
  simp only [userEmail]
  have hor : okV (pyOr (pyGet d "email") (pyGet d "emailAddress")) = true := by
    unfold pyOr
    split
    · exact he
    · exact hea
  by_cases ht : (pyOr (pyGet d "email") (pyGet d "emailAddress")).truthy
  · rw [if_pos ht]
    exact ⟨_, rfl, hor⟩
  · rw [if_neg ht]
    obtain ⟨s, hs⟩ := strOrAbsent_getD "" hu
    rw [hs]
    cases hb : charsContain s.data ("@".data) with
    | true =>
      have hc : pyContains "@" (RawValue.str s) = .ok true := by
        simp only [pyContains]
        rw [hb]
      rw [hc]
      exact ⟨.str s, rfl, rfl⟩
    | false =>
      have hc : pyContains "@" (RawValue.str s) = .ok false := by
        simp only [pyContains]
        rw [hb]
      rw [hc]
      exact ⟨_, rfl, hor⟩

theorem okV_pyOr_username {d : PyDict}
    (hun : strOrAbsent d "username" = true)
    (hnm : okV (pyGet d "name") = true) :
    okV (pyOr (pyGet d "username") (pyGet d "name")) = true := by
  unfold pyOr
  split
  next ht =>
    unfold strOrAbsent at hun
    unfold pyGet at ht ⊢
    cases hg : dictGet d "username" with
    | none => rfl
    | some v =>
      rw [hg] at ht hun
      cases v <;> simp_all [okV]
  next => exact hnm

theorem mkUser_okV {aid un dn em pp : RawValue} (ia : Bool) {lo : RawValue}
    (ha : okV aid = true) (hu : okV un = true)
    (hd : ∃ s, dn = RawValue.str s) (he : okV em = true)
    (hp : okV pp = true) (hl : okV lo = true) :
    ∃ r, mkConfluenceUser aid un dn em pp ia lo = .ok r := by
  obtain ⟨s, rfl⟩ := hd
  unfold mkConfluenceUser
  rw [okV_valid ha, okV_valid hu, okV_valid he, okV_valid hp, okV_valid hl]
  exact ⟨_, rfl⟩

theorem mkAttachment_okV {i ty st ti mt fs : RawValue}
    (h1 : okV i = true) (h2 : okV ty = true) (h3 : okV st = true)
    (h4 : okV ti = true) (h5 : okV mt = true) (h6 : okIntV fs = true) :
    ∃ r, mkConfluenceAttachment i ty st ti mt fs = .ok r := by
  unfold mkConfluenceAttachment
  rw [okV_valid h1, okV_valid h2, okV_valid h3, okV_valid h4, okV_valid h5,
    okIntV_valid h6]
  exact ⟨_, rfl⟩

/-- C1 (corrected): for every non-empty raw user mapping from which a
record is returned, is_active is true exactly when the raw accountStatus
value is the string "active"; any other value, including an absent field,
yields false.  The empty raw mapping instead takes the falsy-data shortcut
and returns the default record (see the counterexample). -/
theorem C1_is_active_iff (data kw : PyDict) (r : ConfluenceUser)
    (hne : data ≠ [])
    (h : ConfluenceUser.from_api_response (some data) kw = .ok r) :
    (r.is_active = true ↔
      dictGet data "accountStatus" = some (.str "active")) := by
  rcases user_ok_fields h with ⟨hd, -⟩ |
    ⟨-, pp, em, -, -, -, -, -, -, -, hia, -⟩
  · exact absurd hd hne
  · rw [hia]
    exact pyEqStr_get_iff data "accountStatus" "active"

/-- C1 counterexample: the claim fails on the empty raw mapping, whose
accountStatus field is absent yet whose returned record has
is_active = true, because the falsy-data shortcut returns the default
record. -/
theorem C1_counterexample :
    dictGet ([] : PyDict) "accountStatus" = none ∧
    (ConfluenceUser.from_api_response (some []) []).map
      ConfluenceUser.is_active = .ok true :=
  ⟨rfl, rfl⟩

/-- C1 witness: the theorem applied at a concrete mapping whose
accountStatus is the string "active". -/
theorem C1_witness :
    (c1rec.is_active = true ↔
      dictGet c1data "accountStatus" = some (.str "active")) :=
  C1_is_active_iff c1data [] c1rec
    (by unfold c1data; exact List.cons_ne_nil _ _) (by decide)

/-- C2 (corrected): both factories return a record without raising on
every raw mapping whose relevant fields are well shaped (profilePicture
falsy or a dict with string-or-absent path, username and displayName
absent or strings, other string-destined fields absent, None or strings,
extensions absent or a dict with string-or-absent mediaType and
integer-or-absent fileSize).  Malformed nested structures do not all
degrade: see the counterexample. -/
theorem C2_no_error_on_wellformed (du da kw : PyDict)
    (hu : userDataOk du = true) (ha : attachmentDataOk da = true) :
    raisesError (ConfluenceUser.from_api_response (some du) kw) = false ∧
    raisesError (ConfluenceAttachment.from_api_response (some da) kw)
      = false := by
  constructor
  · have hu2 := hu
    simp only [userDataOk, Bool.and_eq_true] at hu2
    obtain ⟨⟨⟨⟨⟨⟨⟨hpic, haid⟩, hem⟩, hea⟩, hun⟩, hnm⟩, hdn⟩, hlo⟩ := hu2
    cases du with
    | nil => rfl
    | cons p rest =>
      simp only [ConfluenceUser.from_api_response]
      rw [if_neg (by simp)]
      obtain ⟨pp, hpp, hppv⟩ := userProfilePic_okV hpic
      obtain ⟨em, hem2, hemv⟩ := userEmail_okV hem hea hun
      obtain ⟨r, hr⟩ := mkUser_okV
        (pyEqStr (pyGet (p :: rest) "accountStatus") "active") haid
        (okV_pyOr_username hun hnm)
        (strOrAbsent_getD UNASSIGNED hdn) hemv hppv hlo
      simp [hpp, hem2, hr, raisesError]
  · have ha2 := ha
    simp only [attachmentDataOk, Bool.and_eq_true] at ha2
    obtain ⟨⟨⟨⟨hext, hid⟩, hty⟩, hst⟩, hti⟩ := ha2
    cases da with
    | nil => rfl
    | cons p rest =>
      simp only [ConfluenceAttachment.from_api_response]
      rw [if_neg (by simp)]
      unfold okExt at hext
      cases hg : pyGetD (p :: rest) "extensions" (.dict []) with
      | null => rw [hg] at hext; simp at hext
      | bool b => rw [hg] at hext; simp at hext
      | int n => rw [hg] at hext; simp at hext
      | str s => rw [hg] at hext; simp at hext
      | dict entries =>
        rw [hg] at hext
        simp at hext
        obtain ⟨hmt, hfs⟩ := hext
        obtain ⟨r, hr⟩ := mkAttachment_okV hid hty hst hti hmt hfs
        simp [pyMethodGet, hr, raisesError]

/-- C2 counterexample: exactly the two malformed shapes named by the
claim raise an embedded AttributeError instead of degrading: a truthy
non-mapping profilePicture, and an extensions key present with value
None. -/
theorem C2_counterexample :
    ConfluenceUser.from_api_response
        (some [("profilePicture", RawValue.str "x")]) [] =
      .error .attributeError ∧
    ConfluenceAttachment.from_api_response
        (some [("extensions", RawValue.null)]) [] =
      .error .attributeError :=
  ⟨rfl, rfl⟩

/-- C2 witness: the theorem applied at concrete well-shaped inputs. -/
theorem C2_witness :
    raisesError (ConfluenceUser.from_api_response (some c2userData) [])
      = false ∧
    raisesError (ConfluenceAttachment.from_api_response (some c2attData) [])
      = false :=
  C2_no_error_on_wellformed c2userData c2attData [] (by decide) (by decide)

/-- C3 (corrected): email resolves with first-match-wins priority: the
raw email value when truthy, else the raw emailAddress value when truthy,
else the raw username string when it contains the character @, and
otherwise the raw emailAddress value itself, which is absent when that key
is absent but is the present falsy value (such as the empty string) when
it is present. -/
theorem C3_email_priority (data kw : PyDict) (r : ConfluenceUser)
    (h : ConfluenceUser.from_api_response (some data) kw = .ok r) :
    r.email = rvStr?
      (if (pyGet data "email").truthy then pyGet data "email"
       else if (pyGet data "emailAddress").truthy then
         pyGet data "emailAddress"
       else if pyContains "@" (pyGetD data "username" (.str ""))
           = .ok true then
         pyGetD data "username" (.str "")
       else pyGet data "emailAddress") := by
  rcases user_ok_fields h with ⟨hd, hr⟩ |
    ⟨-, pp, em, -, hem, -, -, -, heq, -, -, -⟩
  · subst hd; subst hr; rfl
  · rw [heq, userEmail_ok_char hem]

/-- C3 counterexample: with emailAddress present but empty, and email and
username absent, the claim requires an absent email, but the returned
record carries the empty string. -/
theorem C3_counterexample :
    dictGet [("emailAddress", RawValue.str "")] "email" = none ∧
    dictGet [("emailAddress", RawValue.str "")] "username" = none ∧
    (ConfluenceUser.from_api_response
        (some [("emailAddress", RawValue.str "")]) []).map
      ConfluenceUser.email = .ok (some "") ∧
    some "" ≠ (none : Option String) :=
  ⟨rfl, rfl, rfl, by simp⟩

/-- C3 witness: the theorem applied where both email fields are present
and non-empty; the resolved email is the email value. -/
theorem C3_witness :
    c3rec.email = rvStr?
      (if (pyGet c3data "email").truthy then pyGet c3data "email"
       else if (pyGet c3data "emailAddress").truthy then
         pyGet c3data "emailAddress"
       else if pyContains "@" (pyGetD c3data "username" (.str ""))
           = .ok true then
         pyGetD c3data "username" (.str "")
       else pyGet c3data "emailAddress") :=
  C3_email_priority c3data [] c3rec (by decide)

/-- C4 (corrected): username equals the raw username value when that
value is truthy, else the raw name value when present, else absent; a
present-but-empty username falls through to name (see the
counterexample), rather than being kept as the claim states. -/
theorem C4_username_fallback (data kw : PyDict) (r : ConfluenceUser)
    (h : ConfluenceUser.from_api_response (some data) kw = .ok r) :
    r.username = rvStr?
      (if (pyGet data "username").truthy then pyGet data "username"
       else pyGet data "name") := by
  rcases user_ok_fields h with ⟨hd, hr⟩ |
    ⟨-, pp, em, -, -, -, hus, -, -, -, -, -⟩
  · subst hd; subst hr; rfl
  · rw [hus]
    rfl

/-- C4 counterexample: the username key is present with the empty string,
but the returned record has an absent username, not the empty string the
claim requires. -/
theorem C4_counterexample :
    dictGet [("username", RawValue.str "")] "username" = some (.str "") ∧
    (ConfluenceUser.from_api_response
        (some [("username", RawValue.str "")]) []).map
      ConfluenceUser.username = .ok none ∧
    (none : Option String) ≠ some "" :=
  ⟨rfl, rfl, by simp⟩

/-- C4 witness: the theorem applied where only the legacy name field is
present. -/
theorem C4_witness :
    c4rec.username = rvStr?
      (if (pyGet c4data "username").truthy then pyGet c4data "username"
       else pyGet c4data "name") :=
  C4_username_fallback c4data [] c4rec (by decide)

/-- C5 (confirmed): the empty and the absent raw mapping both yield the
all-defaults record: for the user, optional fields absent, display_name
the sentinel and is_active true; for the attachment, all six fields
absent. -/
theorem C5_empty_defaults :
    ConfluenceUser.from_api_response (some []) [] = .ok
      { account_id := none, username := none, display_name := UNASSIGNED,
        email := none, profile_picture := none, is_active := true,
        locale := none } ∧
    ConfluenceUser.from_api_response none [] = .ok
      { account_id := none, username := none, display_name := UNASSIGNED,
        email := none, profile_picture := none, is_active := true,
        locale := none } ∧
    ConfluenceAttachment.from_api_response (some []) [] = .ok
      { id := none, type := none, status := none, title := none,
        media_type := none, file_size := none } ∧
    ConfluenceAttachment.from_api_response none [] = .ok
      { id := none, type := none, status := none, title := none,
        media_type := none, file_size := none } :=
  ⟨rfl, rfl, rfl, rfl⟩

/-- C6 (confirmed): the simplified user dict has exactly the four keys
display_name, username, email, profile_picture in that order, and never
the keys account_id, is_active or locale. -/
theorem C6_user_simplified_keys (u : ConfluenceUser) :
    u.to_simplified_dict.map Prod.fst =
      ["display_name", "username", "email", "profile_picture"] ∧
    dictGet u.to_simplified_dict "account_id" = none ∧
    dictGet u.to_simplified_dict "is_active" = none ∧
    dictGet u.to_simplified_dict "locale" = none :=
  ⟨rfl, rfl, rfl, rfl⟩

/-- C7 (confirmed): for every record built from a raw attachment mapping,
the simplified dict has exactly the six keys id, type, status, title,
media_type, file_size in that order, and each key is bound to the value
of the corresponding record field. -/
theorem C7_attachment_roundtrip (data kw : PyDict)
    (r : ConfluenceAttachment)
    (_h : ConfluenceAttachment.from_api_response (some data) kw = .ok r) :
    r.to_simplified_dict.map Prod.fst =
      ["id", "type", "status", "title", "media_type", "file_size"] ∧
    dictGet r.to_simplified_dict "id" = some (optStrRV r.id) ∧
    dictGet r.to_simplified_dict "type" = some (optStrRV r.type) ∧
    dictGet r.to_simplified_dict "status" = some (optStrRV r.status) ∧
    dictGet r.to_simplified_dict "title" = some (optStrRV r.title) ∧
    dictGet r.to_simplified_dict "media_type"
      = some (optStrRV r.media_type) ∧
    dictGet r.to_simplified_dict "file_size"
      = some (optIntRV r.file_size) :=
  ⟨rfl, rfl, rfl, rfl, rfl, rfl, rfl⟩

/-- C7 witness: the theorem applied at the concrete attachment payload of
the spec examples. -/
theorem C7_witness :
    c7rec.to_simplified_dict.map Prod.fst =
      ["id", "type", "status", "title", "media_type", "file_size"] ∧
    dictGet c7rec.to_simplified_dict "id" = some (optStrRV c7rec.id) ∧
    dictGet c7rec.to_simplified_dict "type" = some (optStrRV c7rec.type) ∧
    dictGet c7rec.to_simplified_dict "status"
      = some (optStrRV c7rec.status) ∧
    dictGet c7rec.to_simplified_dict "title"
      = some (optStrRV c7rec.title) ∧
    dictGet c7rec.to_simplified_dict "media_type"
      = some (optStrRV c7rec.media_type) ∧
    dictGet c7rec.to_simplified_dict "file_size"
      = some (optIntRV c7rec.file_size) :=
  C7_attachment_roundtrip c7data [] c7rec (by decide)

/-- C8 (confirmed): every returned record carries a string display_name,
equal to the raw displayName value when that key is present and to the
sentinel when it is absent, and the deprecated name accessor returns
exactly display_name. -/
theorem C8_display_name_invariant (data kw : PyDict) (r : ConfluenceUser)
    (h : ConfluenceUser.from_api_response (some data) kw = .ok r) :
    (∀ v, dictGet data "displayName" = some v
      → v = .str r.display_name) ∧
    (dictGet data "displayName" = none → r.display_name = UNASSIGNED) ∧
    r.name = r.display_name := by
  rcases user_ok_fields h with ⟨hd, hr⟩ |
    ⟨-, pp, em, -, -, -, -, hdn, -, -, -, -⟩
  · subst hd; subst hr
    refine ⟨fun v hv => ?_, fun _ => rfl, rfl⟩
    simp [dictGet] at hv
  · refine ⟨fun v hv => ?_, fun hnone => ?_, rfl⟩
    · unfold pyGetD at hdn
      rw [hv] at hdn
      exact hdn.symm
    · unfold pyGetD at hdn
      rw [hnone] at hdn
      exact RawValue.str.inj hdn

/-- C8 witness: the theorem applied at a mapping with a present
displayName. -/
theorem C8_witness :
    RawValue.str "Jane" = RawValue.str c8rec.display_name :=
  (C8_display_name_invariant c8data [] c8rec (by decide)).1
    (.str "Jane") rfl

/-- C9 (confirmed): both factories ignore the extra keyword arguments
they capture; the result depends only on the raw mapping. -/
theorem C9_kwargs_independent (data : Option PyDict) (kw1 kw2 : PyDict) :
    ConfluenceUser.from_api_response data kw1 =
      ConfluenceUser.from_api_response data kw2 ∧
    ConfluenceAttachment.from_api_response data kw1 =
      ConfluenceAttachment.from_api_response data kw2 :=
  ⟨rfl, rfl⟩

/-- C10 (confirmed): a present displayName is copied verbatim, even when
it is the empty string; the sentinel appears only when the key is absent
or when the raw value is itself the sentinel string. -/
theorem C10_display_name_verbatim (data kw : PyDict) (r : ConfluenceUser)
    (h : ConfluenceUser.from_api_response (some data) kw = .ok r) :
    (∀ s, dictGet data "displayName" = some (.str s)
      → r.display_name = s) ∧
    (r.display_name = UNASSIGNED →
      dictGet data "displayName" = none ∨
      dictGet data "displayName" = some (.str UNASSIGNED)) := by
  rcases user_ok_fields h with ⟨hd, hr⟩ |
    ⟨-, pp, em, -, -, -, -, hdn, -, -, -, -⟩
  · subst hd; subst hr
    refine ⟨fun s hs => ?_, fun _ => Or.inl rfl⟩
    simp [dictGet] at hs
  · constructor
    · intro s hs
      unfold pyGetD at hdn
      rw [hs] at hdn
      exact RawValue.str.inj hdn
    · intro hU
      unfold pyGetD at hdn
      cases hg : dictGet data "displayName" with
      | none => exact Or.inl rfl
      | some v =>
        rw [hg] at hdn
        refine Or.inr ?_
        have hv : v = RawValue.str r.display_name := hdn.symm
        rw [hv, hU]

/-- C10 witness: the theorem applied at a mapping whose displayName is
the empty string; the record keeps the empty string. -/
theorem C10_witness : c10rec.display_name = "" :=
  (C10_display_name_verbatim c10data [] c10rec (by decide)).1 "" rfl
